import Mathlib

/-!
Shallow embedding of the go-azure graceful-shutdown HTTP server (main.go).

The program serves HTTP over a wrapped listener, counts in-flight
connections in a wait group, watches a directory for newly created build
artifacts, and on the first creation event closes the listener, drains the
remaining connections under a deadline, and exits.

Each definition below is translated from the corresponding Go declaration
in main.go; the surrounding runtime behavior (channel close semantics,
wait-group underflow panics, select over ready channels, process exit
codes of log.Fatalf and os.Exit) follows the documented Go semantics of
those primitives.
-/

namespace GoAzure

/-- State of the global `wg : sync.WaitGroup` (main.go line 26). Go's
WaitGroup stores a non-negative counter; calling Done when the counter is
already zero panics ("negative WaitGroup counter"), recorded here in the
`panicked` flag. -/
structure WaitGroup where
  counter : Nat
  panicked : Bool
deriving DecidableEq, Repr

/-- Model of `wg.Add(1)` as performed once per accepted connection
(main.go line 48). -/
def WaitGroup.add1 (w : WaitGroup) : WaitGroup :=
  { w with counter := w.counter + 1 }

/-- Model of `wg.Done()` (main.go line 31): decrements the counter; a call
with the counter already at zero is the Go runtime panic for a negative
WaitGroup counter. A panicked wait group stays panicked. -/
def WaitGroup.done (w : WaitGroup) : WaitGroup :=
  if w.panicked then w
  else if w.counter = 0 then { w with panicked := true }
  else { w with counter := w.counter - 1 }

/-- Errors returned by the network layer to `Accept` or `Close`. A closed
listener's Accept returns Go's "use of closed network connection" error. -/
inductive NetErr
  | useOfClosedConn
  | otherErr (msg : String)
deriving DecidableEq, Repr

/-- An underlying `net.Conn`, identified by its remote address. -/
structure RawConn where
  remoteAddr : String
deriving DecidableEq, Repr

/-- The connection wrapper `semConn` (main.go lines 22-24): embeds the
underlying `net.Conn`. -/
structure semConn where
  conn : RawConn
deriving DecidableEq, Repr

/-- Sample connection used to instantiate closed statements. -/
def sampleConn : semConn := ⟨⟨"203.0.113.7:49152"⟩⟩

/-- Model of `semConn.Close` (main.go lines 28-33): performs the underlying
`c.Conn.Close()` (whose outcome, success or error, is the environment-supplied
`underlyingResult`), logs, then calls `wg.Done()` unconditionally, and
returns the underlying result to the caller. The receiver `c` carries no
state of its own. -/
def semConn.close (c : semConn) (underlyingResult : Option NetErr)
    (w : WaitGroup) : Option NetErr × WaitGroup :=
  (underlyingResult, w.done)

/-- The listener wrapper `stoppableListener` (main.go lines 35-38); for
Accept only the closed/open state of the embedded `net.Listener` matters. -/
structure stoppableListener where
  closed : Bool
deriving DecidableEq, Repr

/-- Behavior of the embedded `net.Listener.Accept`: once the listener has
been closed every Accept call fails with the "use of closed network
connection" error; an open listener yields the next incoming connection,
or some other error when the network layer fails. -/
def underlyingAccept (closed : Bool) (incoming : Option RawConn) :
    Except NetErr RawConn :=
  if closed then Except.error NetErr.useOfClosedConn
  else
    match incoming with
    | some c => Except.ok c
    | none => Except.error (NetErr.otherErr "accept failed")

/-- Model of `stoppableListener.Accept` (main.go lines 40-51): delegates to
the embedded listener; on error returns the error unchanged, with no
wrapping and no wait-group increment; on success wraps the connection as a
`semConn` and calls `wg.Add(1)`. -/
def stoppableListener.accept (l : stoppableListener) (incoming : Option RawConn)
    (w : WaitGroup) : Except NetErr semConn × WaitGroup :=
  match underlyingAccept l.closed incoming with
  | Except.error e => (Except.error e, w)
  | Except.ok c => (Except.ok { conn := c }, w.add1)

/-- The fsnotify operation bitmask values (fsnotify: Create, Write, Remove,
Rename, Chmod are successive bits). -/
def createOp : Nat := 1

/-- Bit for fsnotify Write. -/
def writeOp : Nat := 2

/-- Bit for fsnotify Remove. -/
def removeOp : Nat := 4

/-- Bit for fsnotify Rename. -/
def renameOp : Nat := 8

/-- A filesystem event as delivered on `w.Events`: a file name and an
operation bitmask. -/
structure Event where
  name : String
  op : Nat
deriving DecidableEq, Repr

/-- The test on main.go line 148: `evt.Op&fsnotify.Create == fsnotify.Create`.
Only the operation bits are inspected, never the file name. -/
def isCreate (e : Event) : Bool := e.op &&& createOp == createOp

/-- Messages the watcher goroutine (main.go lines 143-159) can receive in
its select: a filesystem event on `w.Events`, an error on `w.Errors`, or
the stop request on `stop`. -/
inductive WatcherMsg
  | fsEvent (e : Event)
  | fsError (msg : String)
  | stopReq
deriving DecidableEq, Repr

/-- State of the watcher goroutine and its `newBin` channel.
`newBinClosed` records whether `close(newBin)` has happened (the artifact
watch signal has fired); `stopped` records that the loop exited after the
stop request; `fatal` records a `log.Fatalf` on a watcher error;
`panicked` records the Go runtime panic from closing an already-closed
channel. -/
structure WatcherState where
  newBinClosed : Bool
  stopped : Bool
  fatal : Bool
  panicked : Bool
deriving DecidableEq, Repr

/-- Watcher state when `startWatcher` returns: signal pending, loop
running. -/
def initialWatcherState : WatcherState :=
  { newBinClosed := false, stopped := false, fatal := false, panicked := false }

/-- One iteration of the watcher goroutine loop (main.go lines 144-158):
on an event whose operation includes Create, `close(newBin)` — which, when
`newBin` is already closed, is Go's "close of closed channel" panic; on any
other event, nothing; on a watcher error, `log.Fatalf` (process terminates);
on the stop request, `w.Close()` and loop exit. A terminated goroutine
(stopped, fatal, or panicked) processes nothing further. -/
def watcherStep (s : WatcherState) (m : WatcherMsg) : WatcherState :=
  if s.stopped || s.fatal || s.panicked then s
  else
    match m with
    | WatcherMsg.fsEvent e =>
        if isCreate e then
          if s.newBinClosed then { s with panicked := true }
          else { s with newBinClosed := true }
        else s
    | WatcherMsg.fsError _ => { s with fatal := true }
    | WatcherMsg.stopReq => { s with stopped := true }

/-- The watcher goroutine processing a sequence of delivered messages in
order. -/
def watcherRun (s : WatcherState) (ms : List WatcherMsg) : WatcherState :=
  ms.foldl watcherStep s

/-- Result of `startWatcher` (main.go lines 134-163) as seen by `main`:
either the process dies in `log.Fatalf` (when `fsnotify.NewWatcher()`
fails), or the function returns the synchronization channels and `main`
proceeds to serve. The return value of `w.Add(config.watchDir)` on line
161 is discarded, so `started addOk` records in `addOk` whether the
directory is actually being watched — the function returns either way. -/
inductive WatcherStartup
  | fatalExit (code : Int)
  | started (watching : Bool)
deriving DecidableEq, Repr

/-- Exit status used by Go's `log.Fatalf` (`os.Exit(1)`). -/
def logFatalExitCode : Int := 1

/-- Model of `startWatcher` (main.go lines 134-163): a failure of
`fsnotify.NewWatcher()` is `log.Fatalf`; the error result of
`w.Add(config.watchDir)` is ignored and the synchronization is returned
regardless. -/
def startWatcher (newWatcherOk : Bool) (addOk : Bool) : WatcherStartup :=
  if newWatcherOk then WatcherStartup.started addOk
  else WatcherStartup.fatalExit logFatalExitCode

/-- The two terminal outcomes of the drain wait in `waitClients`. -/
inductive DrainOutcome
  | drained
  | forced
deriving DecidableEq, Repr

/-- Time at which `wg.Wait()` returns when the counter is already zero at
the start of the wait: immediately (time 0). -/
def immediateDrain : Option Nat := some 0

/-- Model of `waitClients` (main.go lines 103-118). `drainTime` is the
instant at which `wg.Wait()` returns, i.e. the counter reaches zero
(`none` when it never does); `deadline` is `maxWait`, the instant at which
the `time.After` channel fires. The select takes whichever channel is
ready first; when both become ready at the same instant, Go's select
chooses pseudo-randomly among the ready cases, modelled by the `tie`
argument. The outcome is terminal: forced runs `os.Exit(-1)`, drained
returns to `main`, which then ends. -/
def waitClients (drainTime : Option Nat) (deadline : Nat)
    (tie : DrainOutcome) : DrainOutcome :=
  match drainTime with
  | none => DrainOutcome.forced
  | some t =>
      if t < deadline then DrainOutcome.drained
      else if deadline < t then DrainOutcome.forced
      else tie

/-- Exit status of the drained path: `waitClients` returns, `main` ends,
the process exits 0. -/
def drainedExitCode : Int := 0

/-- Exit status argument of the forced path: `os.Exit(-1)` on main.go
line 114 (observed by the parent as a non-zero status). -/
def forcedExitCode : Int := -1

/-- Process exit status determined by the drain outcome. -/
def shutdownExitCode : DrainOutcome → Int
  | DrainOutcome.drained => drainedExitCode
  | DrainOutcome.forced => forcedExitCode

/-- Exit status of `printUsage` (main.go lines 124-127): prints the usage
line and calls `os.Exit(0)`. -/
def printUsageExitCode : Int := 0

/-- How `main` (main.go lines 66-84) starts, as a function of the
positional arguments left after flag parsing: with fewer than one argument
`printUsage()` exits the process before `net.Listen` is called and before
`startWatcher` runs; otherwise `main` takes `flag.Arg(0)` as the watch
directory and proceeds to bind the listener and start the watcher. -/
inductive MainStart
  | usageExit (code : Int)
  | bindThenWatch (watchDir : String)
deriving DecidableEq, Repr

/-- Model of the argument check at the top of `main` (main.go lines 67-71). -/
def mainStart (args : List String) : MainStart :=
  if args.length < 1 then MainStart.usageExit printUsageExitCode
  else MainStart.bindThenWatch args.headI

/-- An HTTP request as seen by a handler: method, path, headers, body. -/
structure Request where
  method : String
  path : String
  headers : List (String × String)
  body : String
deriving DecidableEq, Repr

/-- The response writer state threaded through a handler: accumulated
headers, the written status code (none until WriteHeader), and the
accumulated body. -/
structure ResponseWriter where
  headers : List (String × String)
  status : Option Nat
  body : String
deriving DecidableEq, Repr

/-- Model of `Header().Add(key, value)`. -/
def ResponseWriter.addHeader (w : ResponseWriter) (k v : String) : ResponseWriter :=
  { w with headers := w.headers ++ [(k, v)] }

/-- Model of `WriteHeader(code)`. -/
def ResponseWriter.writeHeader (w : ResponseWriter) (code : Nat) : ResponseWriter :=
  { w with status := some code }

/-- Model of `fmt.Fprint(w, s)`. -/
def ResponseWriter.write (w : ResponseWriter) (s : String) : ResponseWriter :=
  { w with body := w.body ++ s }

/-- The fresh response writer handed to a handler. -/
def emptyResponseWriter : ResponseWriter :=
  { headers := [], status := none, body := "" }

/-- The value of `http.StatusOK`. -/
def statusOK : Nat := 200

/-- The literal body written by `rootHandler` (main.go line 171). -/
def helloBody : String := "\x7b\"message\": \"Hello from Azure Websites!\"\x7d"

/-- Model of `rootHandler` (main.go lines 165-172): adds the Content-Type
header, writes status 200, writes the fixed JSON body; the request is
never inspected. -/
def rootHandler (w : ResponseWriter) (r : Request) : ResponseWriter :=
  ((w.addHeader "Content-Type" "application/json").writeHeader statusOK).write helloBody

/-- Claim C6: for every accept attempt made after the underlying listener
has been closed, Accept returns the underlying failure to the caller
unchanged, no connection is wrapped (the result is the error, not a
`semConn`), and the wait-group counter is not incremented. -/
theorem accept_after_close (l : stoppableListener) (incoming : Option RawConn)
    (w : WaitGroup) (h : l.closed = true) :
    underlyingAccept l.closed incoming = Except.error NetErr.useOfClosedConn ∧
    stoppableListener.accept l incoming w = (Except.error NetErr.useOfClosedConn, w) := by
  constructor
  · simp [underlyingAccept, h]
  · simp [stoppableListener.accept, underlyingAccept, h]

/-- Witness for C6 at a concrete closed listener, pending connection and
wait-group state. -/
theorem accept_after_close_witness :
    underlyingAccept (stoppableListener.closed ⟨true⟩) (some ⟨"198.51.100.3:1234"⟩) =
      Except.error NetErr.useOfClosedConn ∧
    stoppableListener.accept ⟨true⟩ (some ⟨"198.51.100.3:1234"⟩) ⟨2, false⟩ =
      (Except.error NetErr.useOfClosedConn, ⟨2, false⟩) :=
  accept_after_close ⟨true⟩ (some ⟨"198.51.100.3:1234"⟩) ⟨2, false⟩ rfl

/-- Claim C7: closing a tracked connection returns the underlying close's
result to the caller and calls `wg.Done()` unconditionally — even when the
underlying close returned an error — so the counter goes down by exactly
one. -/
theorem close_returns_underlying_and_decrements (c : semConn)
    (r : Option NetErr) (w : WaitGroup)
    (hp : w.panicked = false) (hc : 0 < w.counter) :
    (semConn.close c r w).1 = r ∧
    (semConn.close c r w).2.counter + 1 = w.counter ∧
    (semConn.close c r w).2.panicked = false := by
  have h0 : w.counter ≠ 0 := by omega
  refine ⟨rfl, ?_, ?_⟩
  · show (WaitGroup.done w).counter + 1 = w.counter
    simp [WaitGroup.done, hp, h0]
    omega
  · show (WaitGroup.done w).panicked = false
    simp [WaitGroup.done, hp, h0]

/-- Witness for C7: closing with an error from the network layer still
returns that error and still decrements the counter from 2 to 1. -/
theorem close_returns_underlying_and_decrements_witness :
    (semConn.close sampleConn (some (NetErr.otherErr "connection reset")) ⟨2, false⟩).1 =
      some (NetErr.otherErr "connection reset") ∧
    (semConn.close sampleConn (some (NetErr.otherErr "connection reset")) ⟨2, false⟩).2.counter + 1 =
      (⟨2, false⟩ : WaitGroup).counter ∧
    (semConn.close sampleConn (some (NetErr.otherErr "connection reset")) ⟨2, false⟩).2.panicked = false :=
  close_returns_underlying_and_decrements sampleConn
    (some (NetErr.otherErr "connection reset")) ⟨2, false⟩ rfl (by decide)

/-- Claim C1, counterexample: with one tracked connection accepted (counter
1), closing it once leaves the tracker at ⟨0, false⟩, but closing it a
second time calls `wg.Done()` again and panics the wait group (Go's guard
against a negative counter) — the double close is not a single decrement. -/
theorem double_close_double_decrement :
    (semConn.close sampleConn none ⟨1, false⟩).2 = ⟨0, false⟩ ∧
    (semConn.close sampleConn none ((semConn.close sampleConn none ⟨1, false⟩).2)).2 = ⟨0, true⟩ ∧
    (semConn.close sampleConn none ((semConn.close sampleConn none ⟨1, false⟩).2)).2 ≠
      (semConn.close sampleConn none ⟨1, false⟩).2 := by
  refine ⟨rfl, rfl, ?_⟩
  decide

/-- Claim C1, amended: every call to Close performs exactly one decrement —
close is not idempotent. From any positive counter a close decrements by
exactly one without panicking, and a second close of the sole tracked
connection drives the wait group into the negative-counter panic. -/
theorem close_decrements_once_per_call (n : Nat) (r : Option NetErr) :
    (semConn.close sampleConn r ⟨n + 1, false⟩).2 = ⟨n, false⟩ ∧
    (semConn.close sampleConn r ((semConn.close sampleConn r ⟨1, false⟩).2)).2 = ⟨0, true⟩ := by
  constructor
  · show WaitGroup.done ⟨n + 1, false⟩ = ⟨n, false⟩
    simp [WaitGroup.done]
  · show WaitGroup.done (WaitGroup.done ⟨1, false⟩) = ⟨0, true⟩
    rfl

/-- Claim C2 (code bug): the signal fires on the first creation event, but
a second creation event delivered to the watcher before the stop request
makes the goroutine call `close(newBin)` on the already-closed channel,
which panics and crashes the process — further creation events are not
harmless. -/
theorem second_create_event_panics :
    (watcherRun initialWatcherState
        [WatcherMsg.fsEvent ⟨"app-1.exe", createOp⟩]).newBinClosed = true ∧
    (watcherRun initialWatcherState
        [WatcherMsg.fsEvent ⟨"app-1.exe", createOp⟩,
         WatcherMsg.fsEvent ⟨"app-2.exe", createOp⟩]).panicked = true :=
  ⟨rfl, rfl⟩

/-- Claim C8: while the watcher is live and the signal pending, an event
whose operation does not include the Create bit changes nothing — the
signal does not fire and the watcher keeps watching — while an event whose
operation includes Create fires the signal, whatever the file name is. -/
theorem watcher_create_filter (s : WatcherState) (e : Event)
    (h1 : s.stopped = false) (h2 : s.fatal = false) (h3 : s.panicked = false)
    (h4 : s.newBinClosed = false) :
    (isCreate e = false → watcherStep s (WatcherMsg.fsEvent e) = s) ∧
    (isCreate e = true →
      watcherStep s (WatcherMsg.fsEvent e) = { s with newBinClosed := true }) := by
  constructor
  · intro hc
    simp [watcherStep, h1, h2, h3, hc]
  · intro hc
    simp [watcherStep, h1, h2, h3, h4, hc]

/-- Witness for C8: a Remove event leaves the fresh watcher unchanged; a
Create event on an arbitrary file name fires the signal. -/
theorem watcher_create_filter_witness :
    watcherStep initialWatcherState (WatcherMsg.fsEvent ⟨"stale.exe", removeOp⟩) =
      initialWatcherState ∧
    watcherStep initialWatcherState (WatcherMsg.fsEvent ⟨"anything.tmp", createOp⟩) =
      { initialWatcherState with newBinClosed := true } := by
  constructor
  · exact (watcher_create_filter initialWatcherState ⟨"stale.exe", removeOp⟩
      rfl rfl rfl rfl).1 (by decide)
  · exact (watcher_create_filter initialWatcherState ⟨"anything.tmp", createOp⟩
      rfl rfl rfl rfl).2 (by decide)

/-- Claim C5 (code bug): a failure of `fsnotify.NewWatcher()` is fatal and
a runtime error on the watcher's error channel is fatal, but a failure of
`w.Add(config.watchDir)` is discarded — `startWatcher` returns and the
process serves without the directory being watched. -/
theorem watcher_add_error_ignored :
    startWatcher false true = WatcherStartup.fatalExit logFatalExitCode ∧
    (watcherStep initialWatcherState (WatcherMsg.fsError "watch queue overflow")).fatal = true ∧
    startWatcher true false = WatcherStartup.started false :=
  ⟨rfl, rfl, rfl⟩

/-- Claim C3: when the counter reaches zero strictly before the deadline
the process exits with the success status 0; when the deadline elapses
first (the counter reaches zero only after it, or never) the process exits
with the distinct non-success status -1; both outcomes are terminal values
of the one-shot drain wait. -/
theorem shutdown_exit_codes (dt : Option Nat) (deadline : Nat) (tie : DrainOutcome) :
    (∀ t, dt = some t → t < deadline →
      shutdownExitCode (waitClients dt deadline tie) = drainedExitCode) ∧
    ((∀ t, dt = some t → deadline < t) →
      shutdownExitCode (waitClients dt deadline tie) = forcedExitCode) ∧
    drainedExitCode = 0 ∧ forcedExitCode ≠ 0 := by
  refine ⟨?_, ?_, rfl, by decide⟩
  · rintro t rfl ht
    simp [waitClients, shutdownExitCode, ht]
  · intro h
    cases dt with
    | none => rfl
    | some t =>
        have ht := h t rfl
        have h1 : ¬ t < deadline := by omega
        simp [waitClients, shutdownExitCode, h1, ht]

/-- Witness for C3: draining at time 1 against deadline 30 exits 0; never
draining against deadline 30 exits -1. -/
theorem shutdown_exit_codes_witness :
    shutdownExitCode (waitClients (some 1) 30 DrainOutcome.drained) = drainedExitCode ∧
    shutdownExitCode (waitClients none 30 DrainOutcome.drained) = forcedExitCode := by
  constructor
  · exact (shutdown_exit_codes (some 1) 30 DrainOutcome.drained).1 1 rfl (by decide)
  · exact (shutdown_exit_codes none 30 DrainOutcome.drained).2.1
      (fun t h => Option.noConfusion h)

/-- Claim C4, counterexample: with the counter already zero (drain ready
immediately) and deadline 0, the `time.After(0)` channel is ready at the
same instant, and a select resolving the tie toward the timeout returns
the forced outcome, not drained — so "for every deadline value" fails at
deadline 0. -/
theorem await_drained_zero_deadline_can_force :
    waitClients immediateDrain 0 DrainOutcome.forced ≠ DrainOutcome.drained := by
  decide

/-- Claim C4, amended: if the counter is already zero when `waitClients`
is called, then for every positive deadline the wait returns the drained
outcome immediately, whichever way select would resolve ties. -/
theorem await_drained_zero_counter (deadline : Nat) (tie : DrainOutcome)
    (h : 0 < deadline) :
    waitClients immediateDrain deadline tie = DrainOutcome.drained := by
  simp [waitClients, immediateDrain, h]

/-- Witness for C4 at the default deadline of 30 with an adversarial tie
choice. -/
theorem await_drained_zero_counter_witness :
    waitClients immediateDrain 30 DrainOutcome.forced = DrainOutcome.drained :=
  await_drained_zero_counter 30 DrainOutcome.forced (by decide)

/-- Claim C9: with the watched-directory positional argument absent, main
prints the usage message and exits with status 0 before binding the
listener or starting the watcher, and that status equals the status of a
normal drained shutdown. -/
theorem missing_arg_exits_zero (args : List String) (h : args.length < 1) :
    mainStart args = MainStart.usageExit printUsageExitCode ∧
    printUsageExitCode = drainedExitCode := by
  constructor
  · simp [mainStart, h]
  · rfl

/-- Witness for C9 at the empty argument list. -/
theorem missing_arg_exits_zero_witness :
    mainStart [] = MainStart.usageExit printUsageExitCode ∧
    printUsageExitCode = drainedExitCode :=
  missing_arg_exits_zero [] (by decide)

/-- Claim C10: the root handler writes the same response for every request —
Content-Type set to application/json, status 200, and the fixed JSON hello
body — independent of the request's method, path, headers and body. -/
theorem root_handler_fixed_response (r1 r2 : Request) :
    rootHandler emptyResponseWriter r1 = rootHandler emptyResponseWriter r2 ∧
    rootHandler emptyResponseWriter r1 =
      { headers := [("Content-Type", "application/json")],
        status := some statusOK, body := helloBody } := by
  exact ⟨rfl, rfl⟩

end GoAzure
